import Mathlib

/-!
# Verification of the OpenGL triangle example (src/OpenGL/src/Application.cpp)

The program is a linear sequence of calls into the OpenGL/GLFW APIs with a
single conditional (the shader-compile failure branch) and a single loop (the
frame loop).  We embed it as a trace semantics: the environment (`ShaderEnv`,
`ProgramEnv`, `MainEnv`) supplies the values the external API returns
(handles, compile status, log text, init success, window-close flags), and
each embedded function returns its C++ return value together with the list of
API calls it issues, in order.  Machine floats appear only as the six literal
vertex coordinates, which are exactly representable; we model them as `ℚ`.
-/

/-! ## OpenGL constants (values from the GL headers) -/

def GL_FALSE : Int := 0
def GL_VERTEX_SHADER : Nat := 35633
def GL_FRAGMENT_SHADER : Nat := 35632
def GL_COMPILE_STATUS : Nat := 35713
def GL_INFO_LOG_LENGTH : Nat := 35716
def GL_ARRAY_BUFFER : Nat := 34962
def GL_STATIC_DRAW : Nat := 35044
def GL_FLOAT : Nat := 5126
def GL_COLOR_BUFFER_BIT : Nat := 16384
def GL_TRIANGLES : Nat := 4
def GL_GEOMETRY_SHADER : Nat := 36313

/-- Size of a C float, the value of sizeof(float) on the target platform. -/
def sizeofFloat : Nat := 4

/-! ## The observable API calls the program can issue

Each constructor records the arguments of the call and, for calls that
return or write a value, the value the environment produced.  A
`glDrawArrays` event additionally records the program bound at the time of
the draw (OpenGL is a state machine: the draw uses the currently bound
program).  `glBufferSubData` and `glGetProgramiv` are part of the modelled
API surface — the program never emits them, which is exactly what the
immutability and no-status-inspection claims assert. -/

inductive GLCall where
  | glfwInit (ok : Bool)
  | glfwCreateWindow (w h : Nat) (title : String) (ok : Bool)
  | glfwMakeContextCurrent
  | glewInit (ok : Bool)
  | print (s : String)
  | glGenBuffers (n : Nat) (id : Nat)
  | glBindBuffer (target id : Nat)
  | glBufferData (target : Nat) (size : Nat) (data : List ℚ) (usage : Nat)
  | glBufferSubData (target : Nat) (off size : Nat) (data : List ℚ)
  | glEnableVertexAttribArray (idx : Nat)
  | glVertexAttribPointer (idx size ty : Nat) (normalized : Bool) (stride off : Nat)
  | glCreateShader (ty : Nat) (ret : Nat)
  | glShaderSource (id count : Nat) (src : String)
  | glCompileShader (id : Nat)
  | glGetShaderiv (id pname : Nat) (ret : Int)
  | malloca (size : Nat)
  | glGetShaderInfoLog (id maxLength : Nat) (msg : String)
  | glDeleteShader (id : Nat)
  | glCreateProgram (ret : Nat)
  | glAttachShader (program sh : Nat)
  | glLinkProgram (program : Nat)
  | glValidateProgram (program : Nat)
  | glGetProgramiv (program pname : Nat) (ret : Int)
  | glUseProgram (id : Nat)
  | glClear (mask : Nat)
  | glDrawArrays (boundProgram mode first count : Nat)
  | glfwSwapBuffers
  | glfwPollEvents
  | glfwWindowShouldClose (iter : Nat) (ret : Bool)
  | glfwTerminate
deriving DecidableEq, Repr

/-! ## `CompileShader` (Application.cpp lines 6–35) -/

/-- Responses of the GL driver to the calls a single `CompileShader`
invocation makes: the handle `glCreateShader` returns, the value
`glGetShaderiv(GL_COMPILE_STATUS)` writes, the value
`glGetShaderiv(GL_INFO_LOG_LENGTH)` writes, and the log text
`glGetShaderInfoLog` writes. -/
structure ShaderEnv where
  shaderId : Nat
  compileStatus : Int
  infoLogLength : Nat
  infoLog : String

/-- The stage label printed in the failure diagnostic:
`type == GL_VERTEX_SHADER ? "Vertex" : "Fragment"` (line 28). -/
def stageName (ty : Nat) : String :=
  if ty = GL_VERTEX_SHADER then "Vertex" else "Fragment"

/-- Trace semantics of CompileShader(type, source): returns the C++ return value
and the trace of API calls issued, in order. -/
def CompileShader (env : ShaderEnv) (ty : Nat) (source : String) :
    Nat × List GLCall :=
  let id := env.shaderId
  let pre : List GLCall :=
    [.glCreateShader ty id,
     .glShaderSource id 1 source,
     .glCompileShader id,
     .glGetShaderiv id GL_COMPILE_STATUS env.compileStatus]
  if env.compileStatus = GL_FALSE then
    let length := env.infoLogLength
    (0, pre ++
      [.glGetShaderiv id GL_INFO_LOG_LENGTH (length : Int),
       .malloca (length * 1),
       .glGetShaderInfoLog id length env.infoLog,
       .print ("Failed to compile " ++ stageName ty ++ " Shader!"),
       .print env.infoLog,
       .glDeleteShader id])
  else
    (id, pre)

/-! ## Claim theorems about `CompileShader` -/

/-- Claim C1: When the compile-status query reports `GL_FALSE`, `CompileShader`
reads the log length, allocates a scratch buffer of that length, fetches the
log, prints the stage kind and the log message, deletes the stage handle and
returns 0; the printed stage-kind diagnostic line is non-empty. -/
theorem compileShader_failure (env : ShaderEnv) (ty : Nat) (source : String)
    (hfail : env.compileStatus = GL_FALSE) :
    CompileShader env ty source =
      (0, [.glCreateShader ty env.shaderId,
           .glShaderSource env.shaderId 1 source,
           .glCompileShader env.shaderId,
           .glGetShaderiv env.shaderId GL_COMPILE_STATUS env.compileStatus,
           .glGetShaderiv env.shaderId GL_INFO_LOG_LENGTH (env.infoLogLength : Int),
           .malloca (env.infoLogLength * 1),
           .glGetShaderInfoLog env.shaderId env.infoLogLength env.infoLog,
           .print ("Failed to compile " ++ stageName ty ++ " Shader!"),
           .print env.infoLog,
           .glDeleteShader env.shaderId]) ∧
    ("Failed to compile " ++ stageName ty ++ " Shader!") ≠ "" := by
  constructor
  · simp [CompileShader, hfail]
  · unfold stageName
    split <;> decide

/-- Witness for C1 at a concrete failing environment. -/
theorem compileShader_failure_witness :
    ({ shaderId := 7, compileStatus := 0, infoLogLength := 12,
       infoLog := "syntax error" } : ShaderEnv).compileStatus = GL_FALSE ∧
    (CompileShader
      { shaderId := 7, compileStatus := 0, infoLogLength := 12,
        infoLog := "syntax error" } GL_VERTEX_SHADER "bad src").1 = 0 := by
  refine ⟨by decide, ?_⟩
  have h := compileShader_failure
    { shaderId := 7, compileStatus := 0, infoLogLength := 12,
      infoLog := "syntax error" } GL_VERTEX_SHADER "bad src" (by decide)
  rw [h.1]

/-- Claim C7: When the compile-status query reports success (any value other
than `GL_FALSE`), `CompileShader` returns the handle `glCreateShader`
produced, unchanged, and its trace contains no `glDeleteShader` call; if the
created handle is nonzero, the returned handle is nonzero. -/
theorem compileShader_success (env : ShaderEnv) (ty : Nat) (source : String)
    (hok : env.compileStatus ≠ GL_FALSE) :
    (CompileShader env ty source).1 = env.shaderId ∧
    (∀ c ∈ (CompileShader env ty source).2, ∀ id, c ≠ GLCall.glDeleteShader id) ∧
    (env.shaderId ≠ 0 → (CompileShader env ty source).1 ≠ 0) := by
  refine ⟨?_, ?_, ?_⟩
  · simp [CompileShader, hok]
  · intro c hc id
    simp [CompileShader, hok] at hc
    rcases hc with h | h | h | h <;> subst h <;> simp
  · intro h0
    simpa [CompileShader, hok] using h0

/-- Witness for C7 at a concrete succeeding environment. -/
theorem compileShader_success_witness :
    ({ shaderId := 5, compileStatus := 1, infoLogLength := 0,
       infoLog := "" } : ShaderEnv).compileStatus ≠ GL_FALSE ∧
    (CompileShader
      { shaderId := 5, compileStatus := 1, infoLogLength := 0,
        infoLog := "" } GL_VERTEX_SHADER "good src").1 = 5 := by
  refine ⟨by decide, ?_⟩
  exact (compileShader_success
    { shaderId := 5, compileStatus := 1, infoLogLength := 0, infoLog := "" }
    GL_VERTEX_SHADER "good src" (by decide)).1

/-- Claim C9: The stage-kind label of the failure diagnostic depends only on
whether `type = GL_VERTEX_SHADER`: it is `"Vertex"` exactly then, and
`"Fragment"` for every other type value (including values that are not
fragment shaders); on the failure path the printed line is built from this
label. -/
theorem compileShader_stage_label (ty : Nat) :
    (stageName ty = "Vertex" ↔ ty = GL_VERTEX_SHADER) ∧
    (ty ≠ GL_VERTEX_SHADER → stageName ty = "Fragment") ∧
    (∀ (env : ShaderEnv) (source : String), env.compileStatus = GL_FALSE →
      GLCall.print ("Failed to compile " ++ stageName ty ++ " Shader!") ∈
        (CompileShader env ty source).2) := by
  refine ⟨?_, ?_, ?_⟩
  · unfold stageName
    split
    · simp_all
    · constructor
      · intro h
        exact absurd h (by decide)
      · intro h
        simp_all
  · intro h
    simp [stageName, h]
  · intro env source hfail
    simp [CompileShader, hfail]

/-- Witness for C9: the geometry-shader type value (not a fragment shader)
is labelled `"Fragment"`, and the diagnostic line is printed on a concrete
failure. -/
theorem compileShader_stage_label_witness :
    stageName GL_GEOMETRY_SHADER = "Fragment" ∧
    GLCall.print ("Failed to compile " ++ stageName GL_GEOMETRY_SHADER ++ " Shader!") ∈
      (CompileShader
        { shaderId := 3, compileStatus := 0, infoLogLength := 1, infoLog := "x" }
        GL_GEOMETRY_SHADER "src").2 := by
  have h := compileShader_stage_label GL_GEOMETRY_SHADER
  exact ⟨h.2.1 (by decide),
    h.2.2 { shaderId := 3, compileStatus := 0, infoLogLength := 1, infoLog := "x" }
      "src" (by decide)⟩

/-! ## `CreateShader` (Application.cpp lines 41–76) -/

/-- Responses of the GL driver to the calls one `CreateShader` invocation
makes: the program handle `glCreateProgram` returns, plus one `ShaderEnv`
per `CompileShader` sub-call. -/
structure ProgramEnv where
  programId : Nat
  vertexEnv : ShaderEnv
  fragmentEnv : ShaderEnv

/-- Trace semantics of CreateShader(vertexShader, fragmentShader): create a
program, compile both stages, attach both results, link, validate, delete the stage handles,
return the program handle. -/
def CreateShader (env : ProgramEnv) (vertexShader fragmentShader : String) :
    Nat × List GLCall :=
  let program := env.programId
  let vsr := CompileShader env.vertexEnv GL_VERTEX_SHADER vertexShader
  let fsr := CompileShader env.fragmentEnv GL_FRAGMENT_SHADER fragmentShader
  (program,
    GLCall.glCreateProgram program ::
      vsr.2 ++ fsr.2 ++
      [.glAttachShader program vsr.1,
       .glAttachShader program fsr.1,
       .glLinkProgram program,
       .glValidateProgram program,
       .glDeleteShader vsr.1,
       .glDeleteShader fsr.1])

lemma compileShader_no_getProgramiv (env : ShaderEnv) (ty : Nat) (s : String)
    (p q : Nat) (r : Int) :
    GLCall.glGetProgramiv p q r ∉ (CompileShader env ty s).2 := by
  unfold CompileShader
  split <;> simp

/-- Claim C2: `CreateShader` performs exactly: create program, compile vertex
stage then fragment stage, attach both resulting handles (whatever they are,
including 0 for a failed stage), link, validate, delete both stage handles —
and returns the program handle unconditionally, never querying link or
validate status. -/
theorem createShader_sequence (env : ProgramEnv) (v f : String) :
    (CreateShader env v f).1 = env.programId ∧
    (CreateShader env v f).2 =
      GLCall.glCreateProgram env.programId ::
        (CompileShader env.vertexEnv GL_VERTEX_SHADER v).2 ++
        (CompileShader env.fragmentEnv GL_FRAGMENT_SHADER f).2 ++
        [.glAttachShader env.programId (CompileShader env.vertexEnv GL_VERTEX_SHADER v).1,
         .glAttachShader env.programId (CompileShader env.fragmentEnv GL_FRAGMENT_SHADER f).1,
         .glLinkProgram env.programId,
         .glValidateProgram env.programId,
         .glDeleteShader (CompileShader env.vertexEnv GL_VERTEX_SHADER v).1,
         .glDeleteShader (CompileShader env.fragmentEnv GL_FRAGMENT_SHADER f).1] ∧
    (env.vertexEnv.compileStatus = GL_FALSE →
      GLCall.glAttachShader env.programId 0 ∈ (CreateShader env v f).2) ∧
    (∀ (p q : Nat) (r : Int), GLCall.glGetProgramiv p q r ∉ (CreateShader env v f).2) := by
  refine ⟨rfl, rfl, ?_, ?_⟩
  · intro hfail
    have hv : (CompileShader env.vertexEnv GL_VERTEX_SHADER v).1 = 0 := by
      simp [CompileShader, hfail]
    simp only [CreateShader]
    rw [← hv]
    simp
  · intro p q r
    simp [CreateShader, compileShader_no_getProgramiv]

/-- Witness for C2 at a concrete environment with a failed vertex stage. -/
theorem createShader_sequence_witness :
    ({ programId := 9,
       vertexEnv := { shaderId := 4, compileStatus := 0, infoLogLength := 2, infoLog := "e" },
       fragmentEnv := { shaderId := 5, compileStatus := 1, infoLogLength := 0, infoLog := "" } } :
       ProgramEnv).vertexEnv.compileStatus = GL_FALSE ∧
    (CreateShader
      { programId := 9,
        vertexEnv := { shaderId := 4, compileStatus := 0, infoLogLength := 2, infoLog := "e" },
        fragmentEnv := { shaderId := 5, compileStatus := 1, infoLogLength := 0, infoLog := "" } }
      "vsrc" "fsrc").1 = 9 ∧
    GLCall.glAttachShader 9 0 ∈
      (CreateShader
        { programId := 9,
          vertexEnv := { shaderId := 4, compileStatus := 0, infoLogLength := 2, infoLog := "e" },
          fragmentEnv := { shaderId := 5, compileStatus := 1, infoLogLength := 0, infoLog := "" } }
        "vsrc" "fsrc").2 := by
  have h := createShader_sequence
    { programId := 9,
      vertexEnv := { shaderId := 4, compileStatus := 0, infoLogLength := 2, infoLog := "e" },
      fragmentEnv := { shaderId := 5, compileStatus := 1, infoLogLength := 0, infoLog := "" } }
    "vsrc" "fsrc"
  exact ⟨by decide, h.1, h.2.2.1 (by decide)⟩

/-! ## `main` (Application.cpp lines 78–201) -/

/-- The six vertex coordinates uploaded by `main` (lines 118–121).  The C
float literals -0.5f, 0.0f, 0.5f are exactly representable, so `ℚ` models
them faithfully. -/
def positions : List ℚ := [-0.5, -0.5, 0.0, 0.5, 0.5, -0.5]

/-- The embedded vertex-shader source string (lines 146–152). -/
def vertexShaderSource : String :=
  "#version 330 core\n\nlayout(location = 0) in vec4 position;\nvoid main()\x7b\n   gl_Position  = position;\n\x7d\n"

/-- The embedded fragment-shader source string (lines 154–160). -/
def fragmentShaderSource : String :=
  "#version 330 core\n\nlayout(location = 0) out vec4 color;\nvoid main()\x7b\n   color = vec4(1.0,0.0,0.0,1.0);\n\x7d\n"

/-- Responses of the window system and GL driver to the calls `main` makes:
whether `glfwInit` / `glfwCreateWindow` / `glewInit` succeed, the version
string `glGetString(GL_VERSION)` returns, the buffer name `glGenBuffers`
writes, the responses for the `CreateShader` call, and the per-iteration
value of `glfwWindowShouldClose`. -/
structure MainEnv where
  glfwInitOk : Bool
  windowOk : Bool
  glewOk : Bool
  glVersion : String
  bufferId : Nat
  progEnv : ProgramEnv
  shouldClose : Nat → Bool

/-- One iteration body of the frame loop (lines 167–195): clear, draw three
vertices starting at 0 with the bound program, swap buffers, poll events. -/
def frameIter (shader : Nat) : List GLCall :=
  [.glClear GL_COLOR_BUFFER_BIT,
   .glDrawArrays shader GL_TRIANGLES 0 3,
   .glfwSwapBuffers,
   .glfwPollEvents]

/-- The frame loop, run with `fuel` remaining iterations starting at
iteration index `i`.  Returns the trace and whether the loop exited because
the window-close flag was observed (`false` means the fuel ran out with the
program still looping). -/
def frameLoop (env : MainEnv) (shader : Nat) : Nat → Nat → List GLCall × Bool
  | _, 0 => ([], false)
  | i, fuel + 1 =>
    if env.shouldClose i then
      ([.glfwWindowShouldClose i true], true)
    else
      let rest := frameLoop env shader (i + 1) fuel
      (GLCall.glfwWindowShouldClose i false :: (frameIter shader ++ rest.1), rest.2)

/-- Trace semantics of `main`.  The first component is `some code` when the
program terminated (within `fuel` loop iterations) with that exit code, and
`none` when the fuel ran out inside the frame loop; the second is the trace
of API calls issued so far. -/
def mainRun (env : MainEnv) (fuel : Nat) : Option Int × List GLCall :=
  if env.glfwInitOk = false then
    (some (-1), [.glfwInit false])
  else if env.windowOk = false then
    (some (-1),
     [.glfwInit true,
      .glfwCreateWindow 640 480 "Hello World" false,
      .glfwTerminate])
  else
    let setup : List GLCall :=
      [.glfwInit true,
       .glfwCreateWindow 640 480 "Hello World" true,
       .glfwMakeContextCurrent,
       .glewInit env.glewOk] ++
      (if env.glewOk then [] else [.print "Error!"]) ++
      [.print env.glVersion,
       .glGenBuffers 1 env.bufferId,
       .glBindBuffer GL_ARRAY_BUFFER env.bufferId,
       .glBufferData GL_ARRAY_BUFFER (6 * sizeofFloat) positions GL_STATIC_DRAW,
       .glEnableVertexAttribArray 0,
       .glVertexAttribPointer 0 2 GL_FLOAT false (sizeofFloat * 2) 0]
    let sh := CreateShader env.progEnv vertexShaderSource fragmentShaderSource
    let lp := frameLoop env sh.1 0 fuel
    ((if lp.2 then some 0 else none),
     setup ++ sh.2 ++ [.glUseProgram sh.1] ++ lp.1 ++
       (if lp.2 then [.glDeleteShader sh.1, .glfwTerminate] else []))

/-! ## Predicates on calls used by the claims -/

/-- The call writes vertex-buffer contents (either GL upload entry point). -/
def isBufferWrite : GLCall → Bool
  | .glBufferData _ _ _ _ => true
  | .glBufferSubData _ _ _ _ => true
  | _ => false

/-- The call is a draw call. -/
def isDrawArrays : GLCall → Bool
  | .glDrawArrays _ _ _ _ => true
  | _ => false

/-- The call releases handle `p` (the program's only release entry point,
`glDeleteShader` — the code never calls `glDeleteProgram`). -/
def isDeleteOf (p : Nat) : GLCall → Bool
  | .glDeleteShader q => q == p
  | _ => false

/-- The call is a GPU operation that uses program `p`: attaching to it,
linking or validating it, binding it, or a draw issued while it is bound. -/
def usesProgram (p : Nat) : GLCall → Bool
  | .glAttachShader q _ => q == p
  | .glLinkProgram q => q == p
  | .glValidateProgram q => q == p
  | .glUseProgram q => q == p
  | .glDrawArrays q _ _ _ => q == p
  | _ => false

/-- Some call using program `p` occurs strictly after a release of `p`. -/
def useAfterRelease (p : Nat) : List GLCall → Bool
  | [] => false
  | c :: rest =>
    if isDeleteOf p c then rest.any (usesProgram p) || useAfterRelease p rest
    else useAfterRelease p rest

/-! ## Helper lemmas -/

/-- The concatenation of `n` frame-loop iteration blocks starting at
iteration index `i`: each block is the close-flag check (observed false)
followed by clear, draw, swap, poll. -/
def loopBlocks (shader i n : Nat) : List GLCall :=
  match n with
  | 0 => []
  | n + 1 =>
    (GLCall.glfwWindowShouldClose i false :: frameIter shader) ++
      loopBlocks shader (i + 1) n

lemma frameLoop_closed_iff (env : MainEnv) (shader : Nat) (fuel : Nat) :
    ∀ i, ((frameLoop env shader i fuel).2 = true ↔
      ∃ k < fuel, env.shouldClose (i + k) = true) := by
  induction fuel with
  | zero => intro i; simp [frameLoop]
  | succ fuel ih =>
    intro i
    by_cases h : env.shouldClose i = true
    · simp only [frameLoop, h, if_true]
      simp only [true_iff]
      exact ⟨0, Nat.succ_pos _, by simpa using h⟩
    · have heq : (frameLoop env shader i (fuel + 1)).2 =
          (frameLoop env shader (i + 1) fuel).2 := by
        simp [frameLoop, h]
      rw [heq, ih (i + 1)]
      constructor
      · rintro ⟨k, hk, hsc⟩
        exact ⟨k + 1, by omega, by rwa [show i + (k + 1) = i + 1 + k by omega]⟩
      · rintro ⟨k, hk, hsc⟩
        cases k with
        | zero => exact absurd (by simpa using hsc) h
        | succ j =>
          exact ⟨j, by omega, by rwa [show i + 1 + j = i + (j + 1) by omega]⟩

lemma frameLoop_structure (env : MainEnv) (shader : Nat) (fuel : Nat) :
    ∀ i, ∃ n, n ≤ fuel ∧
      (frameLoop env shader i fuel).1 =
        loopBlocks shader i n ++
          (if (frameLoop env shader i fuel).2 then
            [GLCall.glfwWindowShouldClose (i + n) true] else []) ∧
      (∀ k < n, env.shouldClose (i + k) = false) := by
  induction fuel with
  | zero =>
    intro i
    exact ⟨0, Nat.le_refl 0, by simp [frameLoop, loopBlocks], by omega⟩
  | succ fuel ih =>
    intro i
    by_cases h : env.shouldClose i = true
    · refine ⟨0, Nat.zero_le _, ?_, by omega⟩
      simp [frameLoop, h, loopBlocks]
    · obtain ⟨n, hn, htr, hfalse⟩ := ih (i + 1)
      have h1 : (frameLoop env shader i (fuel + 1)).1 =
          GLCall.glfwWindowShouldClose i false ::
            (frameIter shader ++ (frameLoop env shader (i + 1) fuel).1) := by
        simp [frameLoop, h]
      have h2 : (frameLoop env shader i (fuel + 1)).2 =
          (frameLoop env shader (i + 1) fuel).2 := by
        simp [frameLoop, h]
      refine ⟨n + 1, by omega, ?_, ?_⟩
      · rw [h1, h2, htr]
        have hidx : i + 1 + n = i + (n + 1) := by omega
        simp [loopBlocks, hidx]
      · intro k hk
        cases k with
        | zero => simpa using eq_false_of_ne_true h
        | succ j =>
          have := hfalse j (by omega)
          rwa [show i + 1 + j = i + (j + 1) by omega] at this

lemma loopBlocks_draw_count (shader : Nat) :
    ∀ n i, (loopBlocks shader i n).countP isDrawArrays = n := by
  intro n
  induction n with
  | zero => intro i; rfl
  | succ n ih =>
    intro i
    simp only [loopBlocks, List.countP_append, List.countP_cons, ih]
    simp [frameIter, List.countP_cons, isDrawArrays]
    omega

lemma loopBlocks_draws (shader : Nat) :
    ∀ n i c, c ∈ loopBlocks shader i n → isDrawArrays c = true →
      c = GLCall.glDrawArrays shader GL_TRIANGLES 0 3 := by
  intro n
  induction n with
  | zero =>
    intro i c hc _
    rw [show loopBlocks shader i 0 = [] from rfl] at hc
    cases hc
  | succ n ih =>
    intro i c hc hd
    simp only [loopBlocks, frameIter, List.cons_append, List.nil_append,
      List.mem_cons, List.mem_append] at hc
    rcases hc with rfl | rfl | rfl | rfl | rfl | hc
    · exact absurd hd (by simp [isDrawArrays])
    · exact absurd hd (by simp [isDrawArrays])
    · rfl
    · exact absurd hd (by simp [isDrawArrays])
    · exact absurd hd (by simp [isDrawArrays])
    · exact ih (i + 1) c (by simpa using hc) hd

/-- Claim C6: Every iteration of the frame loop run by `main` is the block
clear, draw, swap-buffers, poll-events (preceded by the close-flag check),
each iteration issues exactly one draw call and that draw covers exactly 3
vertices starting at index 0, and the loop terminates exactly when the
window-close flag becomes set (within the available fuel). -/
theorem frame_loop_iterations (env : MainEnv) (shader i fuel : Nat) :
    (∃ n, n ≤ fuel ∧
      (frameLoop env shader i fuel).1 =
        loopBlocks shader i n ++
          (if (frameLoop env shader i fuel).2 then
            [GLCall.glfwWindowShouldClose (i + n) true] else []) ∧
      (frameLoop env shader i fuel).1.countP isDrawArrays = n ∧
      (∀ k < n, env.shouldClose (i + k) = false)) ∧
    (∀ c ∈ (frameLoop env shader i fuel).1, isDrawArrays c = true →
      c = GLCall.glDrawArrays shader GL_TRIANGLES 0 3) ∧
    ((frameLoop env shader i fuel).2 = true ↔
      ∃ k < fuel, env.shouldClose (i + k) = true) := by
  obtain ⟨n, hn, htr, hf⟩ := frameLoop_structure env shader fuel i
  refine ⟨⟨n, hn, htr, ?_, hf⟩, ?_, frameLoop_closed_iff env shader fuel i⟩
  · rw [htr, List.countP_append, loopBlocks_draw_count]
    split <;> simp [List.countP_cons, isDrawArrays]
  · intro c hc hd
    rw [htr] at hc
    rcases List.mem_append.mp hc with hc | hc
    · exact loopBlocks_draws shader n i c hc hd
    · split at hc
      · simp only [List.mem_singleton] at hc
        subst hc
        exact absurd hd (by simp [isDrawArrays])
      · cases hc

lemma compileShader_result (env : ShaderEnv) (ty : Nat) (s : String) :
    (CompileShader env ty s).1 = 0 ∨ (CompileShader env ty s).1 = env.shaderId := by
  unfold CompileShader
  split <;> simp

lemma compileShader_filter_bufferWrite (env : ShaderEnv) (ty : Nat) (s : String) :
    (CompileShader env ty s).2.filter isBufferWrite = [] := by
  unfold CompileShader
  split <;> rfl

lemma createShader_filter_bufferWrite (env : ProgramEnv) (v f : String) :
    (CreateShader env v f).2.filter isBufferWrite = [] := by
  unfold CreateShader
  simp only [List.cons_append, List.filter_cons, List.filter_append,
    compileShader_filter_bufferWrite]
  rfl

lemma frameLoop_filter_bufferWrite (env : MainEnv) (shader fuel : Nat) :
    ∀ i, (frameLoop env shader i fuel).1.filter isBufferWrite = [] := by
  induction fuel with
  | zero => intro i; rfl
  | succ fuel ih =>
    intro i
    by_cases h : env.shouldClose i = true
    · simp [frameLoop, h, isBufferWrite]
    · simp only [frameLoop, h, Bool.false_eq_true, if_false, List.filter_cons,
        List.filter_append]
      simp [frameIter, ih (i + 1), isBufferWrite]

lemma compileShader_filter_delete (env : ShaderEnv) (ty : Nat) (s : String)
    (p : Nat) (hp : p ≠ env.shaderId) :
    (CompileShader env ty s).2.filter (isDeleteOf p) = [] := by
  unfold CompileShader
  split
  · simp only [List.filter_append, List.filter_cons]
    have hms : isDeleteOf p (GLCall.glDeleteShader env.shaderId) = false := by
      simp [isDeleteOf]
      exact Ne.symm hp
    simp [hms, isDeleteOf]
    exact Ne.symm hp
  · rfl

lemma createShader_filter_delete (env : ProgramEnv) (v f : String) (p : Nat)
    (hp0 : p ≠ 0)
    (hpv : p ≠ env.vertexEnv.shaderId)
    (hpf : p ≠ env.fragmentEnv.shaderId) :
    (CreateShader env v f).2.filter (isDeleteOf p) = [] := by
  have hvs := compileShader_result env.vertexEnv GL_VERTEX_SHADER v
  have hfs := compileShader_result env.fragmentEnv GL_FRAGMENT_SHADER f
  have hv' : (CompileShader env.vertexEnv GL_VERTEX_SHADER v).1 ≠ p := by
    rcases hvs with h | h <;> rw [h]
    · exact Ne.symm hp0
    · exact Ne.symm hpv
  have hf' : (CompileShader env.fragmentEnv GL_FRAGMENT_SHADER f).1 ≠ p := by
    rcases hfs with h | h <;> rw [h]
    · exact Ne.symm hp0
    · exact Ne.symm hpf
  unfold CreateShader
  simp only [List.cons_append, List.filter_cons, List.filter_append,
    compileShader_filter_delete env.vertexEnv GL_VERTEX_SHADER v p hpv,
    compileShader_filter_delete env.fragmentEnv GL_FRAGMENT_SHADER f p hpf]
  simp [isDeleteOf, hv', hf']

lemma frameLoop_filter_delete (env : MainEnv) (shader fuel : Nat) (p : Nat) :
    ∀ i, (frameLoop env shader i fuel).1.filter (isDeleteOf p) = [] := by
  induction fuel with
  | zero => intro i; rfl
  | succ fuel ih =>
    intro i
    by_cases h : env.shouldClose i = true
    · simp [frameLoop, h, isDeleteOf]
    · simp only [frameLoop, h, Bool.false_eq_true, if_false, List.filter_cons,
        List.filter_append]
      simp [frameIter, ih (i + 1), isDeleteOf]

lemma useAfterRelease_append_of_no_delete (p : Nat) (A B : List GLCall)
    (h : ∀ c ∈ A, isDeleteOf p c = false) :
    useAfterRelease p (A ++ B) = useAfterRelease p B := by
  induction A with
  | nil => rfl
  | cons a A ih =>
    have ha := h a (List.mem_cons_self a A)
    simp only [List.cons_append, useAfterRelease, ha, Bool.false_eq_true,
      if_false]
    exact ih (fun c hc => h c (List.mem_cons_of_mem a hc))

/-! ## Concrete environments for witnesses -/

/-- A driver environment in which both shader stages compile. -/
def okProgramEnv : ProgramEnv :=
  { programId := 7,
    vertexEnv := { shaderId := 2, compileStatus := 1, infoLogLength := 0, infoLog := "" },
    fragmentEnv := { shaderId := 3, compileStatus := 1, infoLogLength := 0, infoLog := "" } }

/-- A fully successful run: everything initializes, and the window-close
flag becomes set from the second loop iteration on. -/
def runEnv : MainEnv :=
  { glfwInitOk := true, windowOk := true, glewOk := true, glVersion := "4.6.0",
    bufferId := 1, progEnv := okProgramEnv,
    shouldClose := fun i => decide (1 ≤ i) }

/-- A run in which `glfwInit` fails. -/
def initFailEnv : MainEnv := { runEnv with glfwInitOk := false }

/-- A run in which `glfwCreateWindow` fails. -/
def windowFailEnv : MainEnv := { runEnv with windowOk := false }

/-- A run in which `glewInit` fails. -/
def glewFailEnv : MainEnv := { runEnv with glewOk := false }

/-! ## Claim theorems about `main` -/

/-- Claim C4: whenever `main` terminates it exits with -1 exactly when
window-system initialization or window creation failed, with 0 exactly on
normal termination (both succeeded and the window was closed), and with no
other exit code. -/
theorem main_exit_codes (env : MainEnv) (fuel : Nat) (c : Int)
    (h : (mainRun env fuel).1 = some c) :
    ((c = -1) ↔ (env.glfwInitOk = false ∨ env.windowOk = false)) ∧
    ((c = 0) ↔ (env.glfwInitOk = true ∧ env.windowOk = true)) ∧
    (c = -1 ∨ c = 0) := by
  by_cases hi : env.glfwInitOk = true
  · by_cases hw : env.windowOk = true
    · simp only [mainRun, hi, hw] at h
      simp only [Bool.true_eq_false, if_false] at h
      split at h
      · have hc : c = 0 := by
          have := h.symm
          simpa using this
        subst hc
        refine ⟨?_, ?_, Or.inr rfl⟩
        · simp [hi, hw]
        · simp [hi, hw]
      · cases h
    · have hw' : env.windowOk = false := by
        simpa using hw
      simp only [mainRun, hi, hw', Bool.true_eq_false, if_false, if_true] at h
      have hc : c = -1 := by
        have := h.symm
        simpa using this
      subst hc
      refine ⟨?_, ?_, Or.inl rfl⟩
      · simp [hw']
      · simp [hw']
  · have hi' : env.glfwInitOk = false := by
      simpa using hi
    simp only [mainRun, hi', if_true] at h
    have hc : c = -1 := by
      have := h.symm
      simpa using this
    subst hc
    refine ⟨?_, ?_, Or.inl rfl⟩
    · simp [hi']
    · simp [hi']

/-- Witness for C4: the `glfwInit`-failure run exits with code -1. -/
theorem main_exit_codes_witness :
    (mainRun initFailEnv 0).1 = some (-1) ∧ ((-1 : Int) = -1 ∨ (-1 : Int) = 0) := by
  have h := main_exit_codes initFailEnv 0 (-1) rfl
  exact ⟨rfl, h.2.2⟩

/-- Claim C10: on window-creation failure `main` calls `glfwTerminate`
before returning -1; on `glfwInit` failure it returns -1 without calling
`glfwTerminate`. -/
theorem main_init_failure_paths (env : MainEnv) (fuel : Nat) :
    (env.glfwInitOk = false →
      mainRun env fuel = (some (-1), [GLCall.glfwInit false]) ∧
      GLCall.glfwTerminate ∉ (mainRun env fuel).2) ∧
    (env.glfwInitOk = true → env.windowOk = false →
      mainRun env fuel =
        (some (-1),
         [GLCall.glfwInit true,
          GLCall.glfwCreateWindow 640 480 "Hello World" false,
          GLCall.glfwTerminate]) ∧
      GLCall.glfwTerminate ∈ (mainRun env fuel).2) := by
  constructor
  · intro hinit
    have he : mainRun env fuel = (some (-1), [GLCall.glfwInit false]) := by
      simp [mainRun, hinit]
    refine ⟨he, ?_⟩
    rw [he]
    simp
  · intro hi hw
    have he : mainRun env fuel =
        (some (-1),
         [GLCall.glfwInit true,
          GLCall.glfwCreateWindow 640 480 "Hello World" false,
          GLCall.glfwTerminate]) := by
      simp [mainRun, hi, hw]
    refine ⟨he, ?_⟩
    rw [he]
    simp

/-- Witness for C10 at the two concrete failure runs. -/
theorem main_init_failure_paths_witness :
    mainRun initFailEnv 0 = (some (-1), [GLCall.glfwInit false]) ∧
    mainRun windowFailEnv 0 =
      (some (-1),
       [GLCall.glfwInit true,
        GLCall.glfwCreateWindow 640 480 "Hello World" false,
        GLCall.glfwTerminate]) :=
  ⟨((main_init_failure_paths initFailEnv 0).1 rfl).1,
   ((main_init_failure_paths windowFailEnv 0).2 rfl rfl).1⟩

/-- Claim C5: whenever the setup phase is reached, the one and only
buffer-content upload in the whole run is the `glBufferData` call whose data
is exactly the six literal floats -0.5, -0.5, 0.0, 0.5, 0.5, -0.5 in that
order and whose size argument is exactly 6 * sizeof(float); no later call
modifies the buffer. -/
theorem main_vertex_buffer (env : MainEnv) (fuel : Nat)
    (hi : env.glfwInitOk = true) (hw : env.windowOk = true) :
    positions = [-(1/2 : ℚ), -(1/2 : ℚ), 0, 1/2, 1/2, -(1/2 : ℚ)] ∧
    (mainRun env fuel).2.filter isBufferWrite =
      [GLCall.glBufferData GL_ARRAY_BUFFER (6 * sizeofFloat) positions GL_STATIC_DRAW] := by
  constructor
  · norm_num [positions]
  · by_cases hg : env.glewOk = true <;>
      simp [mainRun, hi, hw, hg, List.filter_append,
        createShader_filter_bufferWrite,
        frameLoop_filter_bufferWrite,
        isBufferWrite, apply_ite (List.filter isBufferWrite)]

/-- Witness for C5 at the fully successful concrete run. -/
theorem main_vertex_buffer_witness :
    runEnv.glfwInitOk = true ∧ runEnv.windowOk = true ∧
    (mainRun runEnv 3).2.filter isBufferWrite =
      [GLCall.glBufferData GL_ARRAY_BUFFER (6 * sizeofFloat) positions GL_STATIC_DRAW] :=
  ⟨rfl, rfl, (main_vertex_buffer runEnv 3 rfl rfl).2⟩

/-- Claim C8: if `glewInit` fails after window and context creation, `main`
prints "Error!" and continues normally — the buffer upload still happens,
the run never exits with -1, and if the window closes within the fuel the
exit code is 0. -/
theorem main_glew_failure (env : MainEnv) (fuel : Nat)
    (hi : env.glfwInitOk = true) (hw : env.windowOk = true)
    (hg : env.glewOk = false) :
    GLCall.print "Error!" ∈ (mainRun env fuel).2 ∧
    (mainRun env fuel).1 ≠ some (-1) ∧
    GLCall.glBufferData GL_ARRAY_BUFFER (6 * sizeofFloat) positions GL_STATIC_DRAW ∈
      (mainRun env fuel).2 ∧
    ((∃ k < fuel, env.shouldClose k = true) → (mainRun env fuel).1 = some 0) := by
  refine ⟨?_, ?_, ?_, ?_⟩
  · simp [mainRun, hi, hw, hg]
  · simp only [mainRun, hi, hw, Bool.true_eq_false, if_false]
    split <;> simp
  · simp [mainRun, hi, hw, hg]
  · intro hex
    have hcl := (frameLoop_closed_iff env
      (CreateShader env.progEnv vertexShaderSource fragmentShaderSource).1 fuel 0).mpr
      (by simpa using hex)
    simp [mainRun, hi, hw, hcl]

/-- Witness for C8 at the concrete GLEW-failure run. -/
theorem main_glew_failure_witness :
    GLCall.print "Error!" ∈ (mainRun glewFailEnv 3).2 ∧
    (mainRun glewFailEnv 3).1 = some 0 := by
  have h := main_glew_failure glewFailEnv 3 rfl rfl rfl
  exact ⟨h.1, h.2.2.2 ⟨1, by omega, by decide⟩⟩

lemma no_delete_of_filter_nil (p : Nat) :
    ∀ (A : List GLCall), A.filter (isDeleteOf p) = [] →
      ∀ c ∈ A, isDeleteOf p c = false := by
  intro A
  induction A with
  | nil => intro _ c hc; cases hc
  | cons a A ih =>
    intro h c hc
    cases hcf : isDeleteOf p a with
    | false =>
      simp only [List.filter_cons, hcf, Bool.false_eq_true, if_false] at h
      rcases List.mem_cons.mp hc with rfl | hc
      · exact hcf
      · exact ih h c hc
    | true =>
      simp only [List.filter_cons, hcf, if_true] at h
      cases h

lemma useAfterRelease_eq_false_of_filter (p : Nat) (A : List GLCall)
    (hA : A.filter (isDeleteOf p) = []) :
    useAfterRelease p
      (A ++ [GLCall.glDeleteShader p, GLCall.glfwTerminate]) = false := by
  rw [useAfterRelease_append_of_no_delete p A _ (no_delete_of_filter_nil p A hA)]
  simp [useAfterRelease, isDeleteOf, usesProgram]

/-- Claim C3 (amended): in every complete run the shader program handle is
released exactly once, at shutdown, and that release happens after the final
GPU use of the program — no call using the program occurs after the release
call. -/
theorem program_release_after_final_use (env : MainEnv) (fuel : Nat)
    (hi : env.glfwInitOk = true) (hw : env.windowOk = true)
    (hterm : (mainRun env fuel).1 = some 0)
    (hp0 : env.progEnv.programId ≠ 0)
    (hpv : env.progEnv.programId ≠ env.progEnv.vertexEnv.shaderId)
    (hpf : env.progEnv.programId ≠ env.progEnv.fragmentEnv.shaderId) :
    (mainRun env fuel).2.filter (isDeleteOf env.progEnv.programId) =
      [GLCall.glDeleteShader env.progEnv.programId] ∧
    useAfterRelease env.progEnv.programId (mainRun env fuel).2 = false := by
  have h1 : (CreateShader env.progEnv vertexShaderSource fragmentShaderSource).1 =
      env.progEnv.programId := rfl
  have hcl : (frameLoop env env.progEnv.programId 0 fuel).2 = true := by
    simp only [mainRun, hi, hw, Bool.true_eq_false, if_false, h1] at hterm
    cases hcf : (frameLoop env env.progEnv.programId 0 fuel).2
    · rw [hcf] at hterm
      simp at hterm
    · rfl
  have hAeq : (mainRun env fuel).2 =
      (([GLCall.glfwInit true,
         GLCall.glfwCreateWindow 640 480 "Hello World" true,
         GLCall.glfwMakeContextCurrent,
         GLCall.glewInit env.glewOk] ++
        (if env.glewOk then [] else [GLCall.print "Error!"]) ++
        [GLCall.print env.glVersion,
         GLCall.glGenBuffers 1 env.bufferId,
         GLCall.glBindBuffer GL_ARRAY_BUFFER env.bufferId,
         GLCall.glBufferData GL_ARRAY_BUFFER (6 * sizeofFloat) positions GL_STATIC_DRAW,
         GLCall.glEnableVertexAttribArray 0,
         GLCall.glVertexAttribPointer 0 2 GL_FLOAT false (sizeofFloat * 2) 0]) ++
       (CreateShader env.progEnv vertexShaderSource fragmentShaderSource).2 ++
       [GLCall.glUseProgram env.progEnv.programId] ++
       (frameLoop env env.progEnv.programId 0 fuel).1) ++
      [GLCall.glDeleteShader env.progEnv.programId, GLCall.glfwTerminate] := by
    simp [mainRun, hi, hw, h1, hcl]
  have hAfilter :
      (([GLCall.glfwInit true,
         GLCall.glfwCreateWindow 640 480 "Hello World" true,
         GLCall.glfwMakeContextCurrent,
         GLCall.glewInit env.glewOk] ++
        (if env.glewOk then [] else [GLCall.print "Error!"]) ++
        [GLCall.print env.glVersion,
         GLCall.glGenBuffers 1 env.bufferId,
         GLCall.glBindBuffer GL_ARRAY_BUFFER env.bufferId,
         GLCall.glBufferData GL_ARRAY_BUFFER (6 * sizeofFloat) positions GL_STATIC_DRAW,
         GLCall.glEnableVertexAttribArray 0,
         GLCall.glVertexAttribPointer 0 2 GL_FLOAT false (sizeofFloat * 2) 0]) ++
       (CreateShader env.progEnv vertexShaderSource fragmentShaderSource).2 ++
       [GLCall.glUseProgram env.progEnv.programId] ++
       (frameLoop env env.progEnv.programId 0 fuel).1).filter
        (isDeleteOf env.progEnv.programId) = [] := by
    by_cases hg : env.glewOk = true <;>
      simp [hg, List.filter_append,
        createShader_filter_delete env.progEnv vertexShaderSource fragmentShaderSource
          env.progEnv.programId hp0 hpv hpf,
        frameLoop_filter_delete, isDeleteOf]
  constructor
  · rw [hAeq, List.filter_append, hAfilter]
    simp [isDeleteOf]
  · rw [hAeq]
    exact useAfterRelease_eq_false_of_filter _ _ hAfilter

/-- Claim C3 as stated is refuted at a concrete complete run: the program
handle 7 is released exactly once, but no GPU operation that uses the
program occurs after the release call — the release happens after the
final GPU use, not before it. -/
theorem program_release_counterexample :
    (mainRun runEnv 3).1 = some 0 ∧
    (mainRun runEnv 3).2.filter (isDeleteOf 7) = [GLCall.glDeleteShader 7] ∧
    useAfterRelease 7 (mainRun runEnv 3).2 = false := by
  refine ⟨rfl, rfl, rfl⟩

/-- Witness for the amended C3 at a concrete complete run. -/
theorem program_release_after_final_use_witness :
    (mainRun runEnv 4).1 = some 0 ∧
    (mainRun runEnv 4).2.filter (isDeleteOf runEnv.progEnv.programId) =
      [GLCall.glDeleteShader runEnv.progEnv.programId] ∧
    useAfterRelease runEnv.progEnv.programId (mainRun runEnv 4).2 = false := by
  have h := program_release_after_final_use runEnv 4 rfl rfl rfl
    (by decide) (by decide) (by decide)
  exact ⟨rfl, h.1, h.2⟩

/-- Witness for C6: at the concrete run, the loop closes because the flag
is set at iteration 1 (within fuel 3), and the trace holds exactly one draw
call (one per executed iteration). -/
theorem frame_loop_iterations_witness :
    (frameLoop runEnv 7 0 3).2 = true ∧
    (frameLoop runEnv 7 0 3).1.countP isDrawArrays = 1 := by
  have h := frame_loop_iterations runEnv 7 0 3
  exact ⟨h.2.2.mpr ⟨1, by omega, by decide⟩, rfl⟩
